import Mathlib

/-!
Verification of the raspi-live pipeline orchestrator and its DASH muxer wrapper.

This file gives a shallow embedding, in Lean, of the Go code under scrutiny:

* internal/ffmpeg/mpegdash/mpegdash.go — the Muxer wrapper around the external
  ffmpeg process (argument construction, Start, Wait);
* cmd/raspilive/dash.go — the orchestrator (streamDash, muxDash/mux, osStopper,
  the serverShutdownDeadline constant, and the watcher goroutines);
* the legacy video package (MuxAndServe and its internal mux helper).

External effects (process launches, process exits, the static file server's
serve loop, OS signals) are modelled as explicit environment parameters; Go
error values are modelled by the inductive GoErr; goroutine interleaving in
streamDash is modelled by a small-step transition relation on configurations.
-/

/-- A Go error value as returned by the code under verification:
either an error created by errors.New (an error string), or the error
returned by exec.Cmd.Wait when the process exited abnormally. -/
inductive GoErr where
  | errorString (msg : String)
  | exitError (msg : String)
deriving DecidableEq

/-- An abstract readable byte-stream handle: the value of an io.ReadCloser.
A Go interface value may be nil, which is modelled by wrapping the handle
in Option at use sites. -/
structure VideoHandle where
  id : Nat
deriving DecidableEq

/-- Model of the exec.Cmd value built by Muxer.Start in mpegdash.go:
the executable name, its argument list, and the stream assigned to Stdin. -/
structure Cmd where
  name : String
  args : List String
  stdin : Option VideoHandle
deriving DecidableEq

/-- Go's strconv.Itoa: the decimal rendering of an integer. -/
def itoa (n : Int) : String := toString n

/-- Go's path.Join of the muxer directory with the fixed manifest file name,
from mpegdash.go line 52. path.Join drops empty elements and joins the rest
with a slash; the trailing Clean step never changes the final path element,
which here is the fixed relative file name. -/
def pathJoin (dir file : String) : String :=
  if dir = "" then file else dir ++ "/" ++ file

/-- The Muxer of internal/ffmpeg/mpegdash/mpegdash.go: a video transformation
operation being prepared or run. ffmpeg steps in with its own defaults when a
value is not provided. The cmd field is the underlying process handle, nil
(none) until Start runs. -/
structure Muxer where
  Directory : String
  Fps : Int
  SegmentTime : Int
  PlaylistSize : Int
  StorageSize : Int
  cmd : Option Cmd := none
deriving DecidableEq

/-- The ffmpeg argument list built by Muxer.Start (mpegdash.go lines 27-52):
a fixed prefix of format options, then one optional flag-value pair per
numeric option that is non-zero, then the output manifest path. -/
def Muxer.startArgs (m : Muxer) : List String :=
  let args := ["-codec", "copy",
               "-f", "dash",
               "-re",
               "-an",
               "-init_seg_name", "init.m4s",
               "-media_seg_name", "$Time$-$Number$.m4s"]
  let args := if m.Fps ≠ 0 then args ++ ["-r", itoa m.Fps] else args
  let args := if m.SegmentTime ≠ 0 then args ++ ["-seg_duration", itoa m.SegmentTime] else args
  let args := if m.PlaylistSize ≠ 0 then args ++ ["-window_size", itoa m.PlaylistSize] else args
  let args := if m.StorageSize ≠ 0 then args ++ ["-extra_window_size", itoa m.StorageSize] else args
  args ++ [pathJoin m.Directory "livestream.mpd"]

/-- Muxer.Start (mpegdash.go lines 26-58): builds the ffmpeg command, stores it
in the muxer's cmd field with the given video stream as its Stdin, and launches
it. The launch outcome of cmd.Start() is environmental and passed in as
launchRes; note that the cmd field is assigned whether or not the launch
succeeds. -/
def Muxer.Start (m : Muxer) (video : Option VideoHandle) (launchRes : Option GoErr) :
    Muxer × Option GoErr :=
  let c : Cmd := { name := "ffmpeg", args := m.startArgs, stdin := video }
  ({ m with cmd := some c }, launchRes)

/-- How the underlying muxing process exited: normally, or abnormally with a
message describing the failure. -/
inductive ExitStatus where
  | normal
  | abnormal (msg : String)
deriving DecidableEq

/-- The result of exec.Cmd.Wait given how the process exited: nil on a normal
exit, the abnormal-exit error otherwise. -/
def cmdWaitResult : ExitStatus → Option GoErr
  | ExitStatus.normal => none
  | ExitStatus.abnormal msg => some (GoErr.exitError msg)

/-- Muxer.Wait (mpegdash.go lines 63-69): returns the "not started" error when
the cmd field is still nil, and otherwise returns the result of waiting on the
underlying process. -/
def Muxer.Wait (m : Muxer) (exit : ExitStatus) : Option GoErr :=
  match m.cmd with
  | none => some (GoErr.errorString "ffmpeg mpegdash: not started")
  | some _ => cmdWaitResult exit

/-- Adjacency scan: containsPair flag v args holds exactly when args has an
occurrence of flag immediately followed by v. -/
def containsPair (flag v : String) : List String → Bool
  | [] => false
  | a :: rest => (a == flag && rest.head? == some v) || containsPair flag v rest

/-- The fixed leading ffmpeg options of Muxer.Start (mpegdash.go lines 27-34). -/
def fixedArgs : List String :=
  ["-codec", "copy",
   "-f", "dash",
   "-re",
   "-an",
   "-init_seg_name", "init.m4s",
   "-media_seg_name", "$Time$-$Number$.m4s"]

/-- The muxer configuration of Scenario D: SegmentTime unset (zero),
PlaylistSize 5, StorageSize 10. -/
def muxerD : Muxer :=
  { Directory := "/camera", Fps := 30, SegmentTime := 0, PlaylistSize := 5, StorageSize := 10 }

/-- The environmental outcomes of the four external calls made by muxDash (and
by the video package's mux): the results of muxer.Mux (launching ffmpeg), of
raspiStream.Start (launching raspivid), of muxer.Wait, and of
raspiStream.Wait. -/
structure MuxEnv where
  muxRes : Option GoErr
  startRes : Option GoErr
  muxWaitRes : Option GoErr
  raspiWaitRes : Option GoErr
deriving DecidableEq

/-- The externally visible calls made by muxDash, in program order. -/
inductive DashEv where
  | muxCall
  | raspiStart
  | muxerWait
  | raspiWait
deriving DecidableEq

/-- muxDash (cmd/raspilive/dash.go lines 125-145; the mux function at lines
308-322 is the same logic): calls muxer.Mux on the stream's video handle, then
raspiStream.Start, then muxer.Wait, then raspiStream.Wait, returning at the
first error. The returned list records the calls performed, in order: muxCall
arms the muxing process to read, raspiStart launches the capture process,
then the two waits. -/
def muxDash (env : MuxEnv) : List DashEv × Option GoErr :=
  match env.muxRes with
  | some e => ([DashEv.muxCall], some e)
  | none =>
    match env.startRes with
    | some e => ([DashEv.muxCall, DashEv.raspiStart], some e)
    | none =>
      match env.muxWaitRes with
      | some e => ([DashEv.muxCall, DashEv.raspiStart, DashEv.muxerWait], some e)
      | none =>
        match env.raspiWaitRes with
        | some e =>
          ([DashEv.muxCall, DashEv.raspiStart, DashEv.muxerWait, DashEv.raspiWait], some e)
        | none =>
          ([DashEv.muxCall, DashEv.raspiStart, DashEv.muxerWait, DashEv.raspiWait], none)

/-- mux of the legacy video package (src/unnamed/part_001 lines 42-70): calls
muxer.Mux and raspiStream.Start, returning their errors; then waits for both
processes in two goroutines, assigning their results to a shared local err
variable — and then executes the literal return nil (line 69), so the
wait-phase outcomes never reach the caller. -/
def videoMux (env : MuxEnv) : Option GoErr :=
  match env.muxRes with
  | some e => some e
  | none =>
    match env.startRes with
    | some e => some e
    | none => none

/-- The environment of Scenario A: the capture executable is missing, so
raspiStream.Start fails; muxer.Mux itself succeeds. -/
def envCaptureLaunchFail : MuxEnv :=
  { muxRes := none,
    startRes := some (GoErr.errorString "exec: raspivid: executable file not found"),
    muxWaitRes := none,
    raspiWaitRes := none }

/-- An environment where the muxing process crashes mid-session: Mux and Start
succeed, muxer.Wait reports an abnormal exit, raspiStream.Wait reports none. -/
def envMuxCrash : MuxEnv :=
  { muxRes := none,
    startRes := none,
    muxWaitRes := some (GoErr.exitError "exit status 1"),
    raspiWaitRes := none }

/-- One second in nanoseconds: Go's time.Second (time.Duration counts
nanoseconds). -/
def timeSecond : Nat := 1000000000

/-- serverShutdownDeadline (dash.go line 161): the fixed graceful-shutdown
deadline handed to srv.Shutdown — 10 seconds. -/
def serverShutdownDeadline : Nat := 10 * timeSecond

/-- Phase of one watcher goroutine of streamDash with respect to the
unbuffered stop channel: still running its component, blocked sending on stop,
or with its send already received by the main goroutine. -/
inductive WatchPhase where
  | running
  | wantSend
  | sent
deriving DecidableEq

/-- Phase of the main goroutine of streamDash: blocked receiving on stop
(line 117), about to close the video stream (line 121), about to shut the
static server down (line 122), or returned. -/
inductive MainPhase where
  | waiting
  | closingStream
  | shuttingDownServer
  | finished
deriving DecidableEq

/-- The two actions of the shutdown sequence (dash.go lines 121-122). -/
inductive OrchEv where
  | closeVideo
  | shutdownServer (deadline : Nat)
deriving DecidableEq

/-- A configuration of streamDash once its goroutines are launched (dash.go
lines 92-123 with osStopper at lines 296-306): the phases of the three watcher
goroutines (server watcher, mux watcher, and osStopper's signal forwarder) and
of the main goroutine, whether log.Fatal has terminated the process, whether
any send on the stop channel panicked (in Go a send panics only on a closed
channel, and stop is never closed), and the shutdown actions performed so
far, in order. -/
structure Config where
  serverW : WatchPhase
  muxW : WatchPhase
  osW : WatchPhase
  main : MainPhase
  halted : Bool
  panicked : Bool
  trace : List OrchEv
deriving DecidableEq

/-- The initial configuration: all three watchers running, the main goroutine
blocked on the stop channel receive, nothing halted, no shutdown action yet. -/
def initConfig : Config :=
  { serverW := WatchPhase.running
    muxW := WatchPhase.running
    osW := WatchPhase.running
    main := MainPhase.waiting
    halted := false
    panicked := false
    trace := [] }

/-- One interleaving step of the streamDash goroutines. A watcher whose
component ends without error becomes a blocked sender on the unbuffered stop
channel; a watcher whose component ends with an error calls log.Fatal, which
terminates the whole process (halted), running no shutdown action; the
osStopper forwarder becomes a sender when an OS signal arrives. A send on the
unbuffered channel completes only by synchronizing with the main goroutine's
single receive; the main goroutine then closes the video stream and shuts the
server down with the fixed deadline. Nothing steps once the process has
halted. -/
inductive Step : Config → Config → Prop where
  | serverOk (c : Config) (h : c.halted = false) (hw : c.serverW = WatchPhase.running) :
      Step c { c with serverW := WatchPhase.wantSend }
  | serverFatal (c : Config) (h : c.halted = false) (hw : c.serverW = WatchPhase.running) :
      Step c { c with halted := true }
  | muxOk (c : Config) (h : c.halted = false) (hw : c.muxW = WatchPhase.running) :
      Step c { c with muxW := WatchPhase.wantSend }
  | muxFatal (c : Config) (h : c.halted = false) (hw : c.muxW = WatchPhase.running) :
      Step c { c with halted := true }
  | osSignal (c : Config) (h : c.halted = false) (hw : c.osW = WatchPhase.running) :
      Step c { c with osW := WatchPhase.wantSend }
  | recvServer (c : Config) (h : c.halted = false) (hw : c.serverW = WatchPhase.wantSend)
      (hm : c.main = MainPhase.waiting) :
      Step c { c with serverW := WatchPhase.sent, main := MainPhase.closingStream }
  | recvMux (c : Config) (h : c.halted = false) (hw : c.muxW = WatchPhase.wantSend)
      (hm : c.main = MainPhase.waiting) :
      Step c { c with muxW := WatchPhase.sent, main := MainPhase.closingStream }
  | recvOs (c : Config) (h : c.halted = false) (hw : c.osW = WatchPhase.wantSend)
      (hm : c.main = MainPhase.waiting) :
      Step c { c with osW := WatchPhase.sent, main := MainPhase.closingStream }
  | doClose (c : Config) (h : c.halted = false) (hm : c.main = MainPhase.closingStream) :
      Step c { c with main := MainPhase.shuttingDownServer,
                      trace := c.trace ++ [OrchEv.closeVideo] }
  | doShutdown (c : Config) (h : c.halted = false)
      (hm : c.main = MainPhase.shuttingDownServer) :
      Step c { c with main := MainPhase.finished,
                      trace := c.trace ++ [OrchEv.shutdownServer serverShutdownDeadline] }

/-- A configuration is reachable when some interleaving of the goroutines
produces it from the initial configuration. -/
def Reachable (c : Config) : Prop :=
  Relation.ReflTransGen Step initConfig c

/-- How many watcher sends have been delivered through the stop channel. -/
def sentCount (c : Config) : Nat :=
  (if c.serverW = WatchPhase.sent then 1 else 0) +
  (if c.muxW = WatchPhase.sent then 1 else 0) +
  (if c.osW = WatchPhase.sent then 1 else 0)

/-- How many times the shutdown sequence has begun executing: the number of
closeVideo actions performed. -/
def shutdownRuns (c : Config) : Nat :=
  c.trace.count OrchEv.closeVideo

/-- The inductive invariant of the streamDash configuration machine: the main
goroutine's phase determines how many sends were delivered and exactly which
shutdown actions have run, and no channel operation ever panics. -/
def OrchInv (c : Config) : Prop :=
  (c.main = MainPhase.waiting → sentCount c = 0 ∧ c.trace = []) ∧
  (c.main = MainPhase.closingStream → sentCount c = 1 ∧ c.trace = []) ∧
  (c.main = MainPhase.shuttingDownServer →
    sentCount c = 1 ∧ c.trace = [OrchEv.closeVideo]) ∧
  (c.main = MainPhase.finished →
    sentCount c = 1 ∧
    c.trace = [OrchEv.closeVideo, OrchEv.shutdownServer serverShutdownDeadline]) ∧
  c.panicked = false

/-- A run in which the mux watcher and the OS-signal forwarder both fire: the
mux watcher's send is the one delivered, the OS forwarder remains a blocked
sender, and the main goroutine has executed the full shutdown sequence. -/
def exampleFinal : Config :=
  { serverW := WatchPhase.running
    muxW := WatchPhase.sent
    osW := WatchPhase.wantSend
    main := MainPhase.finished
    halted := false
    panicked := false
    trace := [OrchEv.closeVideo, OrchEv.shutdownServer serverShutdownDeadline] }

/-- The static file server configuration (server.Static of internal/server). -/
structure Static where
  Port : Nat
  Directory : String
  Cert : String
  Key : String

/-- Errors of the static file server: the distinguished invalid-directory
error (server.ErrInvalidDirectory), or a serve failure. -/
inductive SrvErr where
  | invalidDirectory
  | serveFailed (msg : String)
deriving DecidableEq

/-- Modelled from the spec: server.Static.ListenAndServe — the internal/server
package is not included under src/ — validates that the configured directory
exists before binding and fails fast with the distinguished invalid-directory
error when it does not; otherwise the serve outcome is environmental (a fatal
serve error, or nil once gracefully closed). The filesystem is abstracted as
the predicate fs telling which directories exist at bind time. -/
def Static.ListenAndServe (s : Static) (fs : String → Bool) (serveRes : Option SrvErr) :
    Option SrvErr :=
  if fs s.Directory then serveRes else some SrvErr.invalidDirectory

/-- The static server configuration of the DASH command with the default
directory flag. -/
def srvDash : Static :=
  { Port := 8080, Directory := "/camera", Cert := "", Key := "" }

/-- The environment in which every external call of muxDash succeeds. -/
def envAllOk : MuxEnv :=
  { muxRes := none, startRes := none, muxWaitRes := none, raspiWaitRes := none }

/-- What a watcher goroutine does after observing its component's outcome:
terminate the process via log.Fatal with a message, or send on the stop
channel. -/
inductive WatchAct where
  | fatal (msg : String)
  | sendStop
deriving DecidableEq

/-- The server watcher goroutine of streamDash (dash.go lines 97-106): an
invalid-directory error from srv.ListenAndServe is fatal with the distinguished
message, any other error is fatal with the generic serving message, and a nil
result sends on the stop channel. -/
def serverWatcherBody (res : Option SrvErr) : WatchAct :=
  match res with
  | some e =>
    if e = SrvErr.invalidDirectory then WatchAct.fatal "Directory does not exist"
    else WatchAct.fatal "Encountered an error serving video"
  | none => WatchAct.sendStop

lemma containsPair_of_append (flag v : String) :
    ∀ (l r : List String), containsPair flag v (l ++ flag :: v :: r) = true := by
  intro l r
  induction l with
  | nil => simp [containsPair]
  | cons a l ih => simp [containsPair, ih]

lemma digitChar_isDigit : ∀ n, n < 10 → (Nat.digitChar n).isDigit = true := by
  decide

lemma toDigitsCore_digits (fuel : Nat) :
    ∀ (n : Nat) (ds : List Char), (∀ c ∈ ds, c.isDigit = true) →
      ∀ c ∈ Nat.toDigitsCore 10 fuel n ds, c.isDigit = true := by
  induction fuel with
  | zero =>
    intro n ds hds c hc
    exact hds c hc
  | succ fuel ih =>
    intro n ds hds c hc
    have hcons : ∀ c ∈ Nat.digitChar (n % 10) :: ds, c.isDigit = true := by
      intro c hc
      rcases List.mem_cons.mp hc with h | h
      · subst h
        exact digitChar_isDigit _ (Nat.mod_lt _ (by decide))
      · exact hds c h
    rw [Nat.toDigitsCore] at hc
    by_cases h : n / 10 = 0
    · rw [if_pos h] at hc
      exact hcons c hc
    · rw [if_neg h] at hc
      exact ih (n / 10) _ hcons c hc

lemma natRepr_digits (n : Nat) : ∀ c ∈ (Nat.repr n).data, c.isDigit = true := by
  intro c hc
  exact toDigitsCore_digits (n + 1) n [] (by intro c hc; cases hc) c hc

lemma itoa_data_digit_or_dash (n : Int) :
    ∀ c ∈ (itoa n).data, c.isDigit = true ∨ c = '-' := by
  intro c hc
  cases n with
  | ofNat m =>
    left
    exact natRepr_digits m c hc
  | negSucc m =>
    have hdata : (itoa (Int.negSucc m)).data = '-' :: (Nat.repr (m + 1)).data := by
      rfl
    rw [hdata] at hc
    rcases List.mem_cons.mp hc with h | h
    · right
      exact h
    · left
      exact natRepr_digits (m + 1) c h

lemma flag_ne_itoa {flag : String} (c : Char) (hc : c ∈ flag.data)
    (hd : c.isDigit = false) (hm : c ≠ '-') (n : Int) : flag ≠ itoa n := by
  intro he
  have hmem : c ∈ (itoa n).data := by
    rw [← he]
    exact hc
  rcases itoa_data_digit_or_dash n c hmem with h | h
  · rw [hd] at h
    cases h
  · exact hm h

lemma pathJoin_getLast (d f : String) (hf : f.data ≠ []) :
    (pathJoin d f).data.getLast? = f.data.getLast? := by
  unfold pathJoin
  split
  · rfl
  · rw [String.data_append, String.data_append, List.getLast?_append]
    cases ha : f.data.getLast? with
    | none => exact absurd (List.getLast?_eq_none_iff.mp ha) hf
    | some a => rfl

lemma flag_ne_pathJoin {flag : String} {c : Char} (hlast : flag.data.getLast? = some c)
    (hc : c ≠ 'd') (dir : String) : flag ≠ pathJoin dir "livestream.mpd" := by
  intro he
  have hdata : flag.data = (pathJoin dir "livestream.mpd").data := by rw [he]
  have : flag.data.getLast? = some 'd' := by
    rw [hdata, pathJoin_getLast dir "livestream.mpd" (by decide)]
    decide
  rw [hlast] at this
  exact hc (Option.some_inj.mp this)

lemma containsPair_append_left (flag v : String) (l : List String) {r : List String}
    (h : containsPair flag v r = true) : containsPair flag v (l ++ r) = true := by
  induction l with
  | nil => simpa using h
  | cons a l ih => simp [containsPair, ih]

lemma r_flag_ne_itoa (n : Int) : "-r" ≠ itoa n :=
  flag_ne_itoa 'r' (by decide) (by decide) (by decide) n

lemma seg_flag_ne_itoa (n : Int) : "-seg_duration" ≠ itoa n :=
  flag_ne_itoa 's' (by decide) (by decide) (by decide) n

lemma window_flag_ne_itoa (n : Int) : "-window_size" ≠ itoa n :=
  flag_ne_itoa 'w' (by decide) (by decide) (by decide) n

lemma extra_flag_ne_itoa (n : Int) : "-extra_window_size" ≠ itoa n :=
  flag_ne_itoa 'x' (by decide) (by decide) (by decide) n

lemma r_flag_ne_pathJoin (dir : String) : "-r" ≠ pathJoin dir "livestream.mpd" :=
  @flag_ne_pathJoin "-r" 'r' (by decide) (by decide) dir

lemma seg_flag_ne_pathJoin (dir : String) : "-seg_duration" ≠ pathJoin dir "livestream.mpd" :=
  @flag_ne_pathJoin "-seg_duration" 'n' (by decide) (by decide) dir

lemma window_flag_ne_pathJoin (dir : String) : "-window_size" ≠ pathJoin dir "livestream.mpd" :=
  @flag_ne_pathJoin "-window_size" 'e' (by decide) (by decide) dir

lemma extra_flag_ne_pathJoin (dir : String) : "-extra_window_size" ≠ pathJoin dir "livestream.mpd" :=
  @flag_ne_pathJoin "-extra_window_size" 'e' (by decide) (by decide) dir

lemma not_mem_opt {flag g : String} (hg : flag ≠ g) (hi : ∀ n : Int, flag ≠ itoa n)
    {c : Prop} [Decidable c] {v : Int} : flag ∉ (if c then [g, itoa v] else []) := by
  split
  · intro hmem
    rcases List.mem_cons.mp hmem with h | h
    · exact hg h
    · rw [List.mem_singleton] at h
      exact hi v h
  · intro hmem
    cases hmem

lemma startArgs_eq (m : Muxer) :
    m.startArgs = fixedArgs
      ++ (if m.Fps ≠ 0 then ["-r", itoa m.Fps] else [])
      ++ (if m.SegmentTime ≠ 0 then ["-seg_duration", itoa m.SegmentTime] else [])
      ++ (if m.PlaylistSize ≠ 0 then ["-window_size", itoa m.PlaylistSize] else [])
      ++ (if m.StorageSize ≠ 0 then ["-extra_window_size", itoa m.StorageSize] else [])
      ++ [pathJoin m.Directory "livestream.mpd"] := by
  by_cases h1 : m.Fps = 0 <;> by_cases h2 : m.SegmentTime = 0 <;>
    by_cases h3 : m.PlaylistSize = 0 <;> by_cases h4 : m.StorageSize = 0 <;>
    simp [Muxer.startArgs, fixedArgs, h1, h2, h3, h4]

lemma fps_omitted (m : Muxer) (h : m.Fps = 0) : "-r" ∉ m.startArgs := by
  rw [startArgs_eq, h]
  intro hmem
  simp only [List.mem_append] at hmem
  rcases hmem with ((((h1 | h2) | h3) | h4) | h5) | h6
  · exact absurd h1 (by decide)
  · simp at h2
  · exact not_mem_opt (by decide) r_flag_ne_itoa h3
  · exact not_mem_opt (by decide) r_flag_ne_itoa h4
  · exact not_mem_opt (by decide) r_flag_ne_itoa h5
  · rw [List.mem_singleton] at h6
    exact r_flag_ne_pathJoin m.Directory h6

lemma seg_omitted (m : Muxer) (h : m.SegmentTime = 0) : "-seg_duration" ∉ m.startArgs := by
  rw [startArgs_eq, h]
  intro hmem
  simp only [List.mem_append] at hmem
  rcases hmem with ((((h1 | h2) | h3) | h4) | h5) | h6
  · exact absurd h1 (by decide)
  · exact not_mem_opt (by decide) seg_flag_ne_itoa h2
  · simp at h3
  · exact not_mem_opt (by decide) seg_flag_ne_itoa h4
  · exact not_mem_opt (by decide) seg_flag_ne_itoa h5
  · rw [List.mem_singleton] at h6
    exact seg_flag_ne_pathJoin m.Directory h6

lemma window_omitted (m : Muxer) (h : m.PlaylistSize = 0) : "-window_size" ∉ m.startArgs := by
  rw [startArgs_eq, h]
  intro hmem
  simp only [List.mem_append] at hmem
  rcases hmem with ((((h1 | h2) | h3) | h4) | h5) | h6
  · exact absurd h1 (by decide)
  · exact not_mem_opt (by decide) window_flag_ne_itoa h2
  · exact not_mem_opt (by decide) window_flag_ne_itoa h3
  · simp at h4
  · exact not_mem_opt (by decide) window_flag_ne_itoa h5
  · rw [List.mem_singleton] at h6
    exact window_flag_ne_pathJoin m.Directory h6

lemma extra_omitted (m : Muxer) (h : m.StorageSize = 0) : "-extra_window_size" ∉ m.startArgs := by
  rw [startArgs_eq, h]
  intro hmem
  simp only [List.mem_append] at hmem
  rcases hmem with ((((h1 | h2) | h3) | h4) | h5) | h6
  · exact absurd h1 (by decide)
  · exact not_mem_opt (by decide) extra_flag_ne_itoa h2
  · exact not_mem_opt (by decide) extra_flag_ne_itoa h3
  · exact not_mem_opt (by decide) extra_flag_ne_itoa h4
  · simp at h5
  · rw [List.mem_singleton] at h6
    exact extra_flag_ne_pathJoin m.Directory h6

lemma fps_passed (m : Muxer) (h : m.Fps ≠ 0) :
    containsPair "-r" (itoa m.Fps) m.startArgs = true := by
  rw [startArgs_eq, if_pos h]
  simp only [List.append_assoc]
  apply containsPair_append_left
  simp [containsPair]

lemma seg_passed (m : Muxer) (h : m.SegmentTime ≠ 0) :
    containsPair "-seg_duration" (itoa m.SegmentTime) m.startArgs = true := by
  rw [startArgs_eq, if_pos h]
  simp only [List.append_assoc]
  apply containsPair_append_left
  apply containsPair_append_left
  simp [containsPair]

lemma window_passed (m : Muxer) (h : m.PlaylistSize ≠ 0) :
    containsPair "-window_size" (itoa m.PlaylistSize) m.startArgs = true := by
  rw [startArgs_eq, if_pos h]
  simp only [List.append_assoc]
  apply containsPair_append_left
  apply containsPair_append_left
  apply containsPair_append_left
  simp [containsPair]

lemma extra_passed (m : Muxer) (h : m.StorageSize ≠ 0) :
    containsPair "-extra_window_size" (itoa m.StorageSize) m.startArgs = true := by
  rw [startArgs_eq, if_pos h]
  simp only [List.append_assoc]
  apply containsPair_append_left
  apply containsPair_append_left
  apply containsPair_append_left
  apply containsPair_append_left
  simp [containsPair]

/-- C6: for every muxer configuration, a numeric option among Fps, SegmentTime,
PlaylistSize and StorageSize whose value is zero contributes no flag to the
constructed ffmpeg argument list, while a non-zero option is passed as the
corresponding flag immediately followed by its decimal rendering. -/
theorem startArgs_zero_omitted_nonzero_passed (m : Muxer) :
    (m.Fps = 0 → "-r" ∉ m.startArgs) ∧
    (m.Fps ≠ 0 → containsPair "-r" (itoa m.Fps) m.startArgs = true) ∧
    (m.SegmentTime = 0 → "-seg_duration" ∉ m.startArgs) ∧
    (m.SegmentTime ≠ 0 → containsPair "-seg_duration" (itoa m.SegmentTime) m.startArgs = true) ∧
    (m.PlaylistSize = 0 → "-window_size" ∉ m.startArgs) ∧
    (m.PlaylistSize ≠ 0 → containsPair "-window_size" (itoa m.PlaylistSize) m.startArgs = true) ∧
    (m.StorageSize = 0 → "-extra_window_size" ∉ m.startArgs) ∧
    (m.StorageSize ≠ 0 → containsPair "-extra_window_size" (itoa m.StorageSize) m.startArgs = true) :=
  ⟨fps_omitted m, fps_passed m, seg_omitted m, seg_passed m,
   window_omitted m, window_passed m, extra_omitted m, extra_passed m⟩

/-- Witness for C6, instantiating the theorem at the Scenario D configuration:
the segment-time flag is omitted and the playlist/storage bounds are passed
with their decimal values (itoa 5 and itoa 10 evaluate to the strings 5 and 10). -/
theorem startArgs_zero_omitted_nonzero_passed_witness :
    muxerD.SegmentTime = 0 ∧
    ("-seg_duration" ∉ muxerD.startArgs) ∧
    containsPair "-window_size" (itoa 5) muxerD.startArgs = true ∧
    containsPair "-extra_window_size" (itoa 10) muxerD.startArgs = true ∧
    containsPair "-r" (itoa 30) muxerD.startArgs = true := by
  refine ⟨rfl, ?_, ?_, ?_, ?_⟩
  · exact (startArgs_zero_omitted_nonzero_passed muxerD).2.2.1 rfl
  · exact (startArgs_zero_omitted_nonzero_passed muxerD).2.2.2.2.2.1 (by decide)
  · exact (startArgs_zero_omitted_nonzero_passed muxerD).2.2.2.2.2.2.2 (by decide)
  · exact (startArgs_zero_omitted_nonzero_passed muxerD).2.1 (by decide)

/-- C7: Muxer.Start stores the given stream value verbatim as the Stdin of the
constructed command and requires nothing more of it at call time: the built
argument list and the returned launch result are unaffected by the stream
value, even when the stream is the nil interface value (none). -/
theorem Start_stores_stream_value (m : Muxer) (video : Option VideoHandle)
    (launchRes : Option GoErr) :
    (m.Start video launchRes).1.cmd =
      some { name := "ffmpeg", args := m.startArgs, stdin := video } ∧
    (m.Start video launchRes).2 = launchRes ∧
    (m.Start none launchRes).1.cmd =
      some { name := "ffmpeg", args := m.startArgs, stdin := none } :=
  ⟨rfl, rfl, rfl⟩

/-- C9: on a muxer whose Start has run (cmd is set), Wait returns exactly the
outcome of waiting on the muxing process: nil on a normal exit, and the
abnormal-exit error otherwise — never the not-started error or anything else. -/
theorem Wait_started_outcomes (m : Muxer) (exit : ExitStatus) (h : m.cmd ≠ none) :
    (exit = ExitStatus.normal ∧ m.Wait exit = none) ∨
    (∃ msg, exit = ExitStatus.abnormal msg ∧ m.Wait exit = some (GoErr.exitError msg)) := by
  match hc : m.cmd with
  | none => exact absurd hc h
  | some c =>
    cases exit with
    | normal =>
      left
      exact ⟨rfl, by simp [Muxer.Wait, hc, cmdWaitResult]⟩
    | abnormal msg =>
      right
      exact ⟨msg, rfl, by simp [Muxer.Wait, hc, cmdWaitResult]⟩

/-- Witness for C9: a muxer on which Start has run, with a normal process exit. -/
theorem Wait_started_outcomes_witness :
    (muxerD.Start none none).1.cmd ≠ none ∧
    ((ExitStatus.normal = ExitStatus.normal ∧
      (muxerD.Start none none).1.Wait ExitStatus.normal = none) ∨
     (∃ msg, ExitStatus.normal = ExitStatus.abnormal msg ∧
      (muxerD.Start none none).1.Wait ExitStatus.normal = some (GoErr.exitError msg))) :=
  ⟨by simp [Muxer.Start], Wait_started_outcomes (muxerD.Start none none).1 ExitStatus.normal
    (by simp [Muxer.Start])⟩

/-- C10: on a muxer on which Start has never been called, so the cmd handle is
still nil, Wait returns the non-nil not-started error: the nil handle is never
dereferenced (the nil check returns before any use of the handle). -/
theorem Wait_not_started (m : Muxer) (exit : ExitStatus) (h : m.cmd = none) :
    m.Wait exit = some (GoErr.errorString "ffmpeg mpegdash: not started") ∧
    m.Wait exit ≠ none := by
  constructor
  · simp [Muxer.Wait, h]
  · simp [Muxer.Wait, h]

/-- Witness for C10: a freshly constructed muxer, before any Start. -/
theorem Wait_not_started_witness :
    muxerD.cmd = none ∧
    muxerD.Wait ExitStatus.normal =
      some (GoErr.errorString "ffmpeg mpegdash: not started") ∧
    muxerD.Wait ExitStatus.normal ≠ none :=
  ⟨rfl, Wait_not_started muxerD ExitStatus.normal rfl⟩

lemma orchInv_init : OrchInv initConfig := by
  refine ⟨?_, ?_, ?_, ?_, rfl⟩ <;> intro hm
  · exact ⟨rfl, rfl⟩
  · exact absurd hm (by decide)
  · exact absurd hm (by decide)
  · exact absurd hm (by decide)

lemma orchInv_step {c c' : Config} (hI : OrchInv c) (hs : Step c c') : OrchInv c' := by
  obtain ⟨h1, h2, h3, h4, h5⟩ := hI
  cases hs with
  | serverOk h hw =>
    have hsc : sentCount { c with serverW := WatchPhase.wantSend } = sentCount c := by
      simp [sentCount, hw]
    exact ⟨fun hm => by rw [hsc]; exact h1 hm,
           fun hm => by rw [hsc]; exact h2 hm,
           fun hm => by rw [hsc]; exact h3 hm,
           fun hm => by rw [hsc]; exact h4 hm, h5⟩
  | serverFatal h hw =>
    exact ⟨h1, h2, h3, h4, h5⟩
  | muxOk h hw =>
    have hsc : sentCount { c with muxW := WatchPhase.wantSend } = sentCount c := by
      simp [sentCount, hw]
    exact ⟨fun hm => by rw [hsc]; exact h1 hm,
           fun hm => by rw [hsc]; exact h2 hm,
           fun hm => by rw [hsc]; exact h3 hm,
           fun hm => by rw [hsc]; exact h4 hm, h5⟩
  | muxFatal h hw =>
    exact ⟨h1, h2, h3, h4, h5⟩
  | osSignal h hw =>
    have hsc : sentCount { c with osW := WatchPhase.wantSend } = sentCount c := by
      simp [sentCount, hw]
    exact ⟨fun hm => by rw [hsc]; exact h1 hm,
           fun hm => by rw [hsc]; exact h2 hm,
           fun hm => by rw [hsc]; exact h3 hm,
           fun hm => by rw [hsc]; exact h4 hm, h5⟩
  | recvServer h hw hm =>
    obtain ⟨hs0, ht0⟩ := h1 hm
    have hsc : sentCount
        { c with serverW := WatchPhase.sent, main := MainPhase.closingStream } = 1 := by
      by_cases hmw : c.muxW = WatchPhase.sent <;> by_cases how : c.osW = WatchPhase.sent <;>
        simp [sentCount, hw, hmw, how] at hs0 ⊢
    exact ⟨(fun hm' => nomatch hm'), fun _ => ⟨hsc, ht0⟩,
           (fun hm' => nomatch hm'), (fun hm' => nomatch hm'), h5⟩
  | recvMux h hw hm =>
    obtain ⟨hs0, ht0⟩ := h1 hm
    have hsc : sentCount
        { c with muxW := WatchPhase.sent, main := MainPhase.closingStream } = 1 := by
      by_cases hsw : c.serverW = WatchPhase.sent <;> by_cases how : c.osW = WatchPhase.sent <;>
        simp [sentCount, hw, hsw, how] at hs0 ⊢
    exact ⟨(fun hm' => nomatch hm'), fun _ => ⟨hsc, ht0⟩,
           (fun hm' => nomatch hm'), (fun hm' => nomatch hm'), h5⟩
  | recvOs h hw hm =>
    obtain ⟨hs0, ht0⟩ := h1 hm
    have hsc : sentCount
        { c with osW := WatchPhase.sent, main := MainPhase.closingStream } = 1 := by
      by_cases hsw : c.serverW = WatchPhase.sent <;> by_cases hmw : c.muxW = WatchPhase.sent <;>
        simp [sentCount, hw, hsw, hmw] at hs0 ⊢
    exact ⟨(fun hm' => nomatch hm'), fun _ => ⟨hsc, ht0⟩,
           (fun hm' => nomatch hm'), (fun hm' => nomatch hm'), h5⟩
  | doClose h hm =>
    obtain ⟨hs0, ht0⟩ := h2 hm
    refine ⟨(fun hm' => nomatch hm'), (fun hm' => nomatch hm'),
            fun _ => ⟨hs0, ?_⟩, (fun hm' => nomatch hm'), h5⟩
    show c.trace ++ [OrchEv.closeVideo] = [OrchEv.closeVideo]
    rw [ht0]
    rfl
  | doShutdown h hm =>
    obtain ⟨hs0, ht0⟩ := h3 hm
    refine ⟨(fun hm' => nomatch hm'), (fun hm' => nomatch hm'),
            (fun hm' => nomatch hm'), fun _ => ⟨hs0, ?_⟩, h5⟩
    show c.trace ++ [OrchEv.shutdownServer serverShutdownDeadline] =
      [OrchEv.closeVideo, OrchEv.shutdownServer serverShutdownDeadline]
    rw [ht0]
    rfl

lemma reachable_orchInv {c : Config} (h : Reachable c) : OrchInv c := by
  unfold Reachable at h
  induction h with
  | refl => exact orchInv_init
  | tail hab hbc ih => exact orchInv_step ih hbc

lemma exampleFinal_reachable : Reachable exampleFinal := by
  unfold Reachable
  refine Relation.ReflTransGen.head (Step.muxOk initConfig rfl rfl) ?_
  refine Relation.ReflTransGen.head (Step.osSignal _ rfl rfl) ?_
  refine Relation.ReflTransGen.head (Step.recvMux _ rfl rfl rfl) ?_
  refine Relation.ReflTransGen.head (Step.doClose _ rfl rfl) ?_
  refine Relation.ReflTransGen.head (Step.doShutdown _ rfl rfl) ?_
  exact Relation.ReflTransGen.refl

/-- C2: in every execution of muxDash, the mux operation is invoked on the
video stream (arming the muxing process to read) strictly before the capture
process is started: whenever raspiStream.Start occurs in the trace, the mux
call occupies an earlier position. -/
theorem muxDash_mux_before_capture (env : MuxEnv)
    (h : DashEv.raspiStart ∈ (muxDash env).1) :
    ∃ i j, i < j ∧ (muxDash env).1.get? i = some DashEv.muxCall ∧
      (muxDash env).1.get? j = some DashEv.raspiStart := by
  cases h1 : env.muxRes with
  | some e =>
    exfalso
    simp [muxDash, h1] at h
  | none =>
    refine ⟨0, 1, Nat.zero_lt_one, ?_, ?_⟩ <;>
      cases h2 : env.startRes <;> cases h3 : env.muxWaitRes <;> cases h4 : env.raspiWaitRes <;>
        simp [muxDash, h1, h2, h3, h4]

/-- Witness for C2: the all-success environment, in which the capture process
is started, after the mux call. -/
theorem muxDash_mux_before_capture_witness :
    DashEv.raspiStart ∈ (muxDash envAllOk).1 ∧
    (∃ i j, i < j ∧ (muxDash envAllOk).1.get? i = some DashEv.muxCall ∧
      (muxDash envAllOk).1.get? j = some DashEv.raspiStart) :=
  ⟨by decide, muxDash_mux_before_capture envAllOk (by decide)⟩

/-- C4: the propagation-policy claim fails on the legacy video.mux
(src/unnamed/part_001): in the environment where the muxing process crashes
mid-session (muxer.Wait returns an abnormal-exit error), video.mux returns nil
— the error is assigned to a local variable and then dropped by the literal
return nil — so the session's terminal result silently swallows the watcher's
outcome. The newer muxDash returns that same first observed error, matching
the claim, which marks the legacy behaviour as a slip rather than intent. -/
theorem videoMux_swallows_wait_error :
    envMuxCrash.muxWaitRes = some (GoErr.exitError "exit status 1") ∧
    videoMux envMuxCrash = none ∧
    (muxDash envMuxCrash).2 = some (GoErr.exitError "exit status 1") :=
  ⟨rfl, rfl, rfl⟩

/-- C5 counterexample: in the Scenario A environment, where the capture
executable is missing so raspiStream.Start fails, the orchestrator does report
the launch error as the terminal result, but the mux process has already been
started — muxer.Mux is deliberately invoked before raspiStream.Start — and
the static server watcher is already running from the initial configuration
(the server goroutine is launched unconditionally before the mux goroutine in
streamDash). This refutes the claim that the server and the mux process are
never started. -/
theorem capture_launch_fail_counterexample :
    (muxDash envCaptureLaunchFail).2 =
      some (GoErr.errorString "exec: raspivid: executable file not found") ∧
    DashEv.muxCall ∈ (muxDash envCaptureLaunchFail).1 ∧
    initConfig.serverW = WatchPhase.running :=
  ⟨rfl, by decide, rfl⟩

/-- C5 amended: if the capture process fails to launch, muxDash stops at that
point and reports the launch failure as the originating error — the trace is
exactly the mux call followed by the failed capture start, so no wait phase
and no shutdown sequence runs — but the mux process has already been started,
and the static server goroutine is already running. -/
theorem capture_launch_fail_amended (env : MuxEnv) (e : GoErr)
    (hmux : env.muxRes = none) (hstart : env.startRes = some e) :
    (muxDash env).2 = some e ∧
    (muxDash env).1 = [DashEv.muxCall, DashEv.raspiStart] ∧
    initConfig.serverW = WatchPhase.running := by
  refine ⟨?_, ?_, rfl⟩ <;> simp [muxDash, hmux, hstart]

/-- Witness for C5's amended claim at the Scenario A environment. -/
theorem capture_launch_fail_amended_witness :
    envCaptureLaunchFail.muxRes = none ∧
    envCaptureLaunchFail.startRes =
      some (GoErr.errorString "exec: raspivid: executable file not found") ∧
    ((muxDash envCaptureLaunchFail).2 =
      some (GoErr.errorString "exec: raspivid: executable file not found") ∧
     (muxDash envCaptureLaunchFail).1 = [DashEv.muxCall, DashEv.raspiStart] ∧
     initConfig.serverW = WatchPhase.running) :=
  ⟨rfl, rfl, capture_launch_fail_amended envCaptureLaunchFail
    (GoErr.errorString "exec: raspivid: executable file not found") rfl rfl⟩

/-- C1: in every reachable configuration of the streamDash goroutine machine —
however many watchers fire, concurrently or not — the shutdown sequence has
begun executing at most once, exactly once when the main goroutine has
finished; at most one send is ever delivered through the stop channel (no
redelivery, no double count), and no channel operation panics. -/
theorem orchestrator_single_shutdown (c : Config) (h : Reachable c) :
    shutdownRuns c ≤ 1 ∧
    (c.main = MainPhase.finished → shutdownRuns c = 1) ∧
    sentCount c ≤ 1 ∧
    c.panicked = false := by
  obtain ⟨h1, h2, h3, h4, h5⟩ := reachable_orchInv h
  cases hm : c.main with
  | waiting =>
    obtain ⟨hs0, ht0⟩ := h1 hm
    refine ⟨?_, ?_, by omega, h5⟩
    · show c.trace.count OrchEv.closeVideo ≤ 1
      rw [ht0]
      decide
    · intro hf
      exact absurd hf (by decide)
  | closingStream =>
    obtain ⟨hs0, ht0⟩ := h2 hm
    refine ⟨?_, ?_, by omega, h5⟩
    · show c.trace.count OrchEv.closeVideo ≤ 1
      rw [ht0]
      decide
    · intro hf
      exact absurd hf (by decide)
  | shuttingDownServer =>
    obtain ⟨hs0, ht0⟩ := h3 hm
    refine ⟨?_, ?_, by omega, h5⟩
    · show c.trace.count OrchEv.closeVideo ≤ 1
      rw [ht0]
      decide
    · intro hf
      exact absurd hf (by decide)
  | finished =>
    obtain ⟨hs0, ht0⟩ := h4 hm
    refine ⟨?_, ?_, by omega, h5⟩
    · show c.trace.count OrchEv.closeVideo ≤ 1
      rw [ht0]
      decide
    · intro hf
      show c.trace.count OrchEv.closeVideo = 1
      rw [ht0]
      decide

/-- Witness for C1: the reachable configuration in which the mux watcher and
the OS-signal forwarder both fired; the shutdown sequence ran exactly once. -/
theorem orchestrator_single_shutdown_witness :
    Reachable exampleFinal ∧
    shutdownRuns exampleFinal = 1 ∧
    sentCount exampleFinal ≤ 1 ∧
    exampleFinal.panicked = false :=
  ⟨exampleFinal_reachable,
   (orchestrator_single_shutdown exampleFinal exampleFinal_reachable).2.1 rfl,
   (orchestrator_single_shutdown exampleFinal exampleFinal_reachable).2.2.1,
   (orchestrator_single_shutdown exampleFinal exampleFinal_reachable).2.2.2⟩

/-- C3: upon the shutdown signal the orchestrator first closes the video
stream and then shuts the static server down, in that order: when the main
goroutine is about to call Shutdown the stream is already closed and nothing
else has run, and once finished the recorded sequence is exactly closeVideo
followed by shutdownServer with the fixed deadline constant, which equals
10 seconds. -/
theorem shutdown_close_then_deadline (c : Config) (h : Reachable c) :
    (c.main = MainPhase.shuttingDownServer → c.trace = [OrchEv.closeVideo]) ∧
    (c.main = MainPhase.finished →
      c.trace = [OrchEv.closeVideo, OrchEv.shutdownServer serverShutdownDeadline]) ∧
    serverShutdownDeadline = 10 * timeSecond := by
  obtain ⟨h1, h2, h3, h4, h5⟩ := reachable_orchInv h
  exact ⟨fun hm => (h3 hm).2, fun hm => (h4 hm).2, rfl⟩

/-- Witness for C3 at the finished example configuration. -/
theorem shutdown_close_then_deadline_witness :
    Reachable exampleFinal ∧
    exampleFinal.trace =
      [OrchEv.closeVideo, OrchEv.shutdownServer serverShutdownDeadline] ∧
    serverShutdownDeadline = 10 * timeSecond :=
  ⟨exampleFinal_reachable,
   (shutdown_close_then_deadline exampleFinal exampleFinal_reachable).2.1 rfl,
   (shutdown_close_then_deadline exampleFinal exampleFinal_reachable).2.2⟩

/-- C8: when the configured directory does not exist at bind time,
ListenAndServe fails fast with the distinguished invalid-directory error,
whatever the environmental serve outcome would have been, and the server
watcher of streamDash turns that error into an immediate fatal exit with the
distinguished message — not a stop-channel send, so no shutdown sequence is
triggered. -/
theorem invalid_directory_fatal_startup (s : Static) (fs : String → Bool)
    (serveRes : Option SrvErr) (h : fs s.Directory = false) :
    s.ListenAndServe fs serveRes = some SrvErr.invalidDirectory ∧
    serverWatcherBody (s.ListenAndServe fs serveRes) =
      WatchAct.fatal "Directory does not exist" ∧
    serverWatcherBody (s.ListenAndServe fs serveRes) ≠ WatchAct.sendStop := by
  have hls : s.ListenAndServe fs serveRes = some SrvErr.invalidDirectory := by
    unfold Static.ListenAndServe
    rw [h]
    simp
  refine ⟨hls, ?_, ?_⟩
  · rw [hls]
    rfl
  · rw [hls]
    decide

/-- Witness for C8: the default DASH server configuration over an empty
filesystem. -/
theorem invalid_directory_fatal_startup_witness :
    (fun _ : String => false) srvDash.Directory = false ∧
    (srvDash.ListenAndServe (fun _ => false) none = some SrvErr.invalidDirectory ∧
     serverWatcherBody (srvDash.ListenAndServe (fun _ => false) none) =
       WatchAct.fatal "Directory does not exist" ∧
     serverWatcherBody (srvDash.ListenAndServe (fun _ => false) none) ≠
       WatchAct.sendStop) :=
  ⟨rfl, invalid_directory_fatal_startup srvDash (fun _ => false) none rfl⟩
